import Mathlib

/-!
# keyvalue: the store and the request handler

Shallow embedding of `core.go` (the package-level map `store` with `Put`, `Get`,
`Delete`) and of `server.go` (`keyValueHandler.ServeHTTP`, the three method handlers,
`getKey` and the three response helpers).

Conventions of the embedding

* A Go `string` is a Lean `String`.  The only place where the program looks inside a
  string is the regular expression of `getKey`, which works rune by rune, so the
  characters of the Lean string stand for the runes of the Go string.
* The package-level variable `store` is passed explicitly: an operation takes the
  store before the call and returns the store after it together with its Go results.
* A Go `error` result is an `Option GoError`; `none` is `nil`.
* `http.ResponseWriter` is a record of what has been sent: status line, header map
  and body bytes, as `httptest.ResponseRecorder` keeps it.
* A handler returns an `Outcome`: the response writer and the store after the call,
  and whether the call ended in a run-time panic.
-/

namespace KeyValue

/-! ## Errors -/

/-- Go error values of the program.  `ErrorNoSuchKey` is the package-level sentinel of
`core.go`; `keyParamMissing` is the value built by `errors.New("key param missing")`
in `getKey`; `external` is an error handed in from outside the program (a failed read
of the request body, a failed write of the response). -/
inductive GoError where
  | ErrorNoSuchKey
  | keyParamMissing
  | external (msg : String)
  deriving DecidableEq, Repr

/-- Method `Error()` of the Go `error` interface: the description of the error. -/
def GoError.Error : GoError → String
  | .ErrorNoSuchKey => "No such key"
  | .keyParamMissing => "key param missing"
  | .external msg => msg

/-- Function `errors.Is(err, target)` for the unwrapped errors of this program:
identity of the error value; a nil `err` is no error at all. -/
def errorsIs (err : Option GoError) (target : GoError) : Bool :=
  match err with
  | none => false
  | some e => decide (e = target)

/-! ## core.go -/

/-- Content of the Go map `map[string]string`: the value stored under each key, if any. -/
abbrev Store := String → Option String

/-- Initial value of the package variable: `make(map[string]string)`. -/
def emptyStore : Store := fun _ => none

/-- Go: `store[key] = value; return nil`. -/
def Put (store : Store) (key : String) (value : String) : Store × Option GoError :=
  (fun k => if k = key then some value else store k, none)

/-- Go: `value, ok := store[key]; if !ok { return "", ErrorNoSuchKey }; return value, nil`. -/
def Get (store : Store) (key : String) : String × Option GoError :=
  match store key with
  | none => ("", some GoError.ErrorNoSuchKey)
  | some value => (value, none)

/-- Go: `delete(store, key); return nil`. -/
def Delete (store : Store) (key : String) : Store × Option GoError :=
  (fun k => if k = key then none else store k, none)

/-! ## net/http: header map and response writer -/

/-- Header map with one value per canonical key (`http.Header` as this program uses it). -/
abbrev Header := List (String × String)

/-- Token characters of a header field name (`validHeaderFieldByte` in `net/textproto`). -/
def validHeaderFieldChar (c : Char) : Bool :=
  c.isAlphanum || "!#$%&*+-.^_|~".data.contains c || c.toNat == 39 || c.toNat == 96

/-- Letter case of the canonical form: upper case at the start and after a hyphen. -/
def canonicalCase : Bool → List Char → List Char
  | _, [] => []
  | upper, c :: cs => (if upper then c.toUpper else c.toLower) :: canonicalCase (c == '-') cs

/-- Function `textproto.CanonicalMIMEHeaderKey`: a name with a character that is not a
token character is returned unchanged. -/
def CanonicalMIMEHeaderKey (s : String) : String :=
  if s.data.all validHeaderFieldChar then String.mk (canonicalCase true s.data) else s

/-- Method `Header.Set`: replaces the values stored under the canonical key. -/
def Header.Set (h : Header) (key value : String) : Header :=
  (CanonicalMIMEHeaderKey key, value) ::
    h.filter (fun p => !(p.1 == CanonicalMIMEHeaderKey key))

/-- Method `Header.Del`. -/
def Header.Del (h : Header) (key : String) : Header :=
  h.filter (fun p => !(p.1 == CanonicalMIMEHeaderKey key))

/-- Method `Header.Get`: the value under the canonical key, `""` when there is none. -/
def Header.Get (h : Header) (key : String) : String :=
  match h.lookup (CanonicalMIMEHeaderKey key) with
  | some v => v
  | none => ""

/-- State of an `http.ResponseWriter`, with the fields of `httptest.ResponseRecorder`:
`HeaderMap` is what `Header()` returns, `snapHeader` the copy of it taken when the
status line is written (the headers of the response), `Code` the status, `Body` the
bytes written.  `writeErr` is the behaviour of the connection behind the writer: the
error that `Write` returns, `none` for a writer that does not fail.  The sniffing of a
content type by `Write` is left out: it happens only while `Content-Type` is unset, and
`ServeHTTP` sets it before any write. -/
structure ResponseWriter where
  HeaderMap : Header
  wroteHeader : Bool
  Code : Nat
  snapHeader : Option Header
  Body : String
  writeErr : Option GoError

/-- Function `httptest.NewRecorder()`: nothing sent yet, status 200 unless a handler
says otherwise. -/
def NewRecorder : ResponseWriter where
  HeaderMap := []
  wroteHeader := false
  Code := 200
  snapHeader := none
  Body := ""
  writeErr := none

/-- Headers of the response (`Result().Header`): the snapshot taken with the status
line, or the header map when no status line was written explicitly. -/
def ResponseWriter.resultHeader (w : ResponseWriter) : Header :=
  match w.snapHeader with
  | some h => h
  | none => w.HeaderMap

/-- Method `WriteHeader(code)`: only the first call has an effect. -/
def WriteHeader (w : ResponseWriter) (code : Nat) : ResponseWriter :=
  if w.wroteHeader then w
  else { w with Code := code, wroteHeader := true, snapHeader := some w.HeaderMap }

/-- Method `Write(buf)`: sends the status line with 200 if none was sent, then appends
the bytes to the body, or reports the error of a failing writer. -/
def Write (w : ResponseWriter) (buf : String) : ResponseWriter × Option GoError :=
  let w1 := WriteHeader w 200
  match w1.writeErr with
  | some e => (w1, some e)
  | none => ({ w1 with Body := w1.Body ++ buf }, none)

/-- Function `http.Error(w, error, code)`: plain-text content type, status line, then
the message and a newline (`fmt.Fprintln`). -/
def httpError (w : ResponseWriter) (error : String) (code : Nat) : ResponseWriter :=
  let h := ((w.HeaderMap.Del "Content-Length").Set "Content-Type"
    "text/plain; charset=utf-8").Set "X-Content-Type-Options" "nosniff"
  (Write (WriteHeader { w with HeaderMap := h } code) (error ++ "\n")).1

/-- Function `http.NotFound(w, r)`: `Error(w, "404 page not found", StatusNotFound)`. -/
def NotFound (w : ResponseWriter) : ResponseWriter :=
  httpError w "404 page not found" 404

/-! ## server.go -/

/-- Request as the handler reads it: `r.Method`, `r.URL.Path`, and the two results of
`io.ReadAll(r.Body)` (the bytes read and the error, `none` for a body read to its end). -/
structure Request where
  Method : String
  Path : String
  Body : String
  BodyErr : Option GoError

/-- State after a handler call: response writer, store, and whether the call panicked. -/
structure Outcome where
  w : ResponseWriter
  store : Store
  panicked : Bool

/-- Result of `regexp.MustCompile("^/(.+)$").FindStringSubmatch(path)`: the whole match
and the capture group, or nil (the empty list) when the path does not match.  The
pattern is anchored at the start of the text, reads a slash, then the group: the
longest run of characters other than newline (for `.` without the `s` flag), one
or more of them; `$` without the `m` flag holds only at the end of the text, so the
run must reach the end. -/
def FindStringSubmatch (path : String) : List String :=
  match path.data with
  | '/' :: rest =>
    let run := rest.takeWhile (fun c => c != '\n')
    if !run.isEmpty && (rest.dropWhile (fun c => c != '\n')).isEmpty
    then [path, String.mk run] else []
  | _ => []

/-- Go: `getKey`. -/
def getKey (r : Request) : String × Option GoError :=
  let submatches := FindStringSubmatch r.Path
  if submatches.length < 2 then ("", some GoError.keyParamMissing)
  else (submatches.getD 1 "", none)

/-- Go: `methodNotAllowed`. -/
def methodNotAllowed (w : ResponseWriter) : ResponseWriter :=
  WriteHeader w 405

/-- Go: `internalServerError`.  The status line is written first; `err.Error()` on a
nil `err` is a nil dereference, the call panics (second component `true`). -/
def internalServerError (w : ResponseWriter) (err : Option GoError) : ResponseWriter × Bool :=
  let w1 := WriteHeader w 500
  match err with
  | none => (w1, true)
  | some e => ((Write w1 e.Error).1, false)

/-- Go: `badRequest`. -/
def badRequest (w : ResponseWriter) (err : Option GoError) : ResponseWriter × Bool :=
  let w1 := WriteHeader w 400
  match err with
  | none => (w1, true)
  | some e => ((Write w1 e.Error).1, false)

/-- Go: `(*keyValueHandler).GetHandler`. -/
def GetHandler (w : ResponseWriter) (r : Request) (store : Store) : Outcome :=
  match getKey r with
  | (_, some err) =>
    let b := badRequest w (some err)
    { w := b.1, store := store, panicked := b.2 }
  | (key, none) =>
    let (value, err) := Get store key
    if errorsIs err GoError.ErrorNoSuchKey then
      { w := NotFound w, store := store, panicked := false }
    else if err.isSome then
      let b := internalServerError w err
      { w := b.1, store := store, panicked := b.2 }
    else
      match Write w value with
      | (w1, some _) =>
        let b := internalServerError w1 err
        { w := b.1, store := store, panicked := b.2 }
      | (w1, none) => { w := w1, store := store, panicked := false }

/-- Go: `(*keyValueHandler).DeleteHandler`. -/
def DeleteHandler (w : ResponseWriter) (r : Request) (store : Store) : Outcome :=
  match getKey r with
  | (_, some err) =>
    let b := badRequest w (some err)
    { w := b.1, store := store, panicked := b.2 }
  | (key, none) =>
    match Delete store key with
    | (store1, some err) =>
      let b := internalServerError w (some err)
      { w := b.1, store := store1, panicked := b.2 }
    | (store1, none) => { w := w, store := store1, panicked := false }

/-- Go: `(*keyValueHandler).PutHandler`.  The deferred `Body.Close()` drops its error
and changes neither the response nor the store. -/
def PutHandler (w : ResponseWriter) (r : Request) (store : Store) : Outcome :=
  match getKey r with
  | (_, some err) =>
    let b := badRequest w (some err)
    { w := b.1, store := store, panicked := b.2 }
  | (key, none) =>
    match r.BodyErr with
    | some err =>
      let b := internalServerError w (some err)
      { w := b.1, store := store, panicked := b.2 }
    | none =>
      match Put store key r.Body with
      | (store1, some err) =>
        let b := internalServerError w (some err)
        { w := b.1, store := store1, panicked := b.2 }
      | (store1, none) => { w := WriteHeader w 201, store := store1, panicked := false }

/-- Go: `(*keyValueHandler).ServeHTTP`. -/
def ServeHTTP (w : ResponseWriter) (r : Request) (store : Store) : Outcome :=
  let w1 := { w with HeaderMap := w.HeaderMap.Set "content-type" "application/json" }
  if r.Method = "GET" then GetHandler w1 r store
  else if r.Method = "DELETE" then DeleteHandler w1 r store
  else if r.Method = "PUT" then PutHandler w1 r store
  else { w := methodNotAllowed w1, store := store, panicked := false }

/-! ## Theorems: the store -/

/-- C1 (read-your-writes): `Put(k, v)` returns a nil error on every store, for every
key and value, the empty ones included, and `Get(k)` right after it returns `(v, nil)`. -/
theorem put_then_get (s : Store) (k v : String) :
    (Put s k v).2 = none ∧ Get (Put s k v).1 k = (v, none)
      ∧ (Put s "" "").2 = none ∧ Get (Put s "" "").1 "" = ("", none) := by
  simp [Put, Get]

/-- C2 (last-write-wins): after `Put(k, v1)` and then `Put(k, v2)`, `Get(k)` returns
`v2`, and the store is the one that the single call `Put(k, v2)` produces. -/
theorem put_put_last_wins (s : Store) (k v1 v2 : String) :
    Get (Put (Put s k v1).1 k v2).1 k = (v2, none)
      ∧ (Put (Put s k v1).1 k v2).1 = (Put s k v2).1 := by
  refine ⟨by simp [Put, Get], ?_⟩
  funext x
  by_cases hx : x = k <;> simp [Put, hx]

/-- C3 (NotFound exactly for absent keys): on the empty store `Get` returns
`("", ErrorNoSuchKey)` for every key; after `Delete(k)`, `Get(k)` returns
`("", ErrorNoSuchKey)` on every store, also when `k` was put just before; and `Get`
returns `ErrorNoSuchKey` exactly when the key has no entry. -/
theorem get_not_found :
    (∀ k : String, Get emptyStore k = ("", some GoError.ErrorNoSuchKey))
      ∧ (∀ (s : Store) (k : String),
          Get (Delete s k).1 k = ("", some GoError.ErrorNoSuchKey))
      ∧ (∀ (s : Store) (k v : String),
          Get (Delete (Put s k v).1 k).1 k = ("", some GoError.ErrorNoSuchKey))
      ∧ (∀ (s : Store) (k : String),
          (Get s k).2 = some GoError.ErrorNoSuchKey ↔ s k = none) := by
  refine ⟨fun k => by simp [Get, emptyStore], fun s k => by simp [Get, Delete],
    fun s k v => by simp [Get, Delete], fun s k => ?_⟩
  cases h : s k <;> simp [Get, h]

/-- C4 (delete of an absent key): when `k` has no entry in `s`, `Delete(k)` returns a
nil error, the store after the call is `s`, and every key has the `Get` result it had. -/
theorem delete_absent (s : Store) (k : String) (h : s k = none) :
    (Delete s k).2 = none ∧ (Delete s k).1 = s
      ∧ ∀ k2 : String, Get (Delete s k).1 k2 = Get s k2 := by
  have hs : (Delete s k).1 = s := by
    funext x
    by_cases hx : x = k
    · simp [Delete, hx, h]
    · simp [Delete, hx]
  exact ⟨rfl, hs, fun k2 => by rw [hs]⟩

/-- Witness of C4: the store holding only `"b"`, and the absent key `"a"`. -/
theorem delete_absent_witness :
    (Put emptyStore "b" "1").1 "a" = none
      ∧ ((Delete (Put emptyStore "b" "1").1 "a").2 = none
        ∧ (Delete (Put emptyStore "b" "1").1 "a").1 = (Put emptyStore "b" "1").1
        ∧ ∀ k2 : String, Get (Delete (Put emptyStore "b" "1").1 "a").1 k2
            = Get (Put emptyStore "b" "1").1 k2) :=
  ⟨by decide, delete_absent (Put emptyStore "b" "1").1 "a" (by decide)⟩

/-! ## Theorems: the request handler -/

/-- Key extraction on the bare separator: `getKey` fails with "key param missing". -/
theorem getKey_root (r : Request) (h : r.Path = "/") :
    getKey r = ("", some GoError.keyParamMissing) := by
  unfold getKey
  rw [h]
  decide

/-- Key extraction on a slash followed by a non-empty remainder without newline:
`getKey` returns the remainder and no error. -/
theorem getKey_slash (r : Request) (k : String) (hp : r.Path = "/" ++ k) (hne : k ≠ "")
    (hnl : '\n' ∉ k.data) : getKey r = (k, none) := by
  have hd : ("/" ++ k).data = '/' :: k.data := by
    simp [String.data_append]
  have hall : ∀ c ∈ k.data, (c != '\n') = true := by
    intro c hc
    simp only [bne_iff_ne, ne_eq]
    intro h
    exact hnl (h ▸ hc)
  have htake : k.data.takeWhile (fun c => c != '\n') = k.data :=
    List.takeWhile_eq_self_iff.mpr hall
  have hdrop : k.data.dropWhile (fun c => c != '\n') = [] :=
    List.dropWhile_eq_nil_iff.mpr hall
  have hk : k.data ≠ [] := by
    intro h
    apply hne
    cases k
    simp_all
  unfold getKey FindStringSubmatch
  rw [hp, hd]
  simp [htake, hdrop, hk]

/-- Every supported method answers 400 on a fresh writer when key extraction fails, and
neither panics nor changes the store. -/
theorem serve_bad_request (s : Store) (r : Request) (we : Option GoError) (e : GoError)
    (hm : r.Method = "GET" ∨ r.Method = "PUT" ∨ r.Method = "DELETE")
    (hk : getKey r = ("", some e)) :
    (ServeHTTP { NewRecorder with writeErr := we } r s).w.Code = 400
      ∧ (ServeHTTP { NewRecorder with writeErr := we } r s).store = s
      ∧ (ServeHTTP { NewRecorder with writeErr := we } r s).panicked = false := by
  rcases hm with hm | hm | hm <;> cases we <;>
    simp [ServeHTTP, GetHandler, PutHandler, DeleteHandler, hm, hk, badRequest, WriteHeader,
      Write, NewRecorder]

/-- C5 (key extraction, failing input): on the target `"/a\nb"`, a slash followed by the
non-empty string `"a\nb"`, `getKey` returns the empty key and the error
"key param missing" instead of the key, and GET, PUT and DELETE all answer 400. -/
theorem getKey_newline_rejected :
    getKey { Method := "GET", Path := "/" ++ "a\nb", Body := "", BodyErr := none }
        = ("", some GoError.keyParamMissing)
      ∧ (ServeHTTP NewRecorder
          { Method := "GET", Path := "/" ++ "a\nb", Body := "", BodyErr := none }
          emptyStore).w.Code = 400
      ∧ (ServeHTTP NewRecorder
          { Method := "PUT", Path := "/" ++ "a\nb", Body := "v", BodyErr := none }
          emptyStore).w.Code = 400
      ∧ (ServeHTTP NewRecorder
          { Method := "DELETE", Path := "/" ++ "a\nb", Body := "", BodyErr := none }
          emptyStore).w.Code = 400 := by
  decide

/-- C6 (missing key): for every store, every request body (read or failed) and every
fresh writer (failing or not), a GET, a PUT and a DELETE of the bare target `"/"` each
answer 400, do not panic, and leave the store as it was. -/
theorem missing_key_rejected (s : Store) (body : String) (bodyErr we : Option GoError) :
    ((ServeHTTP { NewRecorder with writeErr := we }
        { Method := "GET", Path := "/", Body := body, BodyErr := bodyErr } s).w.Code = 400
      ∧ (ServeHTTP { NewRecorder with writeErr := we }
        { Method := "GET", Path := "/", Body := body, BodyErr := bodyErr } s).store = s
      ∧ (ServeHTTP { NewRecorder with writeErr := we }
        { Method := "GET", Path := "/", Body := body, BodyErr := bodyErr } s).panicked = false)
    ∧ ((ServeHTTP { NewRecorder with writeErr := we }
        { Method := "PUT", Path := "/", Body := body, BodyErr := bodyErr } s).w.Code = 400
      ∧ (ServeHTTP { NewRecorder with writeErr := we }
        { Method := "PUT", Path := "/", Body := body, BodyErr := bodyErr } s).store = s
      ∧ (ServeHTTP { NewRecorder with writeErr := we }
        { Method := "PUT", Path := "/", Body := body, BodyErr := bodyErr } s).panicked = false)
    ∧ ((ServeHTTP { NewRecorder with writeErr := we }
        { Method := "DELETE", Path := "/", Body := body, BodyErr := bodyErr } s).w.Code = 400
      ∧ (ServeHTTP { NewRecorder with writeErr := we }
        { Method := "DELETE", Path := "/", Body := body, BodyErr := bodyErr } s).store = s
      ∧ (ServeHTTP { NewRecorder with writeErr := we }
        { Method := "DELETE", Path := "/", Body := body, BodyErr := bodyErr } s).panicked
          = false) := by
  refine ⟨?_, ?_, ?_⟩
  · exact serve_bad_request s
      { Method := "GET", Path := "/", Body := body, BodyErr := bodyErr } we _
      (Or.inl rfl) (getKey_root _ rfl)
  · exact serve_bad_request s
      { Method := "PUT", Path := "/", Body := body, BodyErr := bodyErr } we _
      (Or.inr (Or.inl rfl)) (getKey_root _ rfl)
  · exact serve_bad_request s
      { Method := "DELETE", Path := "/", Body := body, BodyErr := bodyErr } we _
      (Or.inr (Or.inr rfl)) (getKey_root _ rfl)

/-- C7 (unsupported method): for every store and every request whose method is none of
`"GET"`, `"PUT"`, `"DELETE"`, whatever its target, `ServeHTTP` on a fresh writer answers
405 with an empty body, does not panic, and leaves the store as it was. -/
theorem method_not_allowed (s : Store) (r : Request) (hg : r.Method ≠ "GET")
    (hp : r.Method ≠ "PUT") (hd : r.Method ≠ "DELETE") :
    (ServeHTTP NewRecorder r s).w.Code = 405
      ∧ (ServeHTTP NewRecorder r s).w.Body = ""
      ∧ (ServeHTTP NewRecorder r s).store = s
      ∧ (ServeHTTP NewRecorder r s).panicked = false := by
  simp [ServeHTTP, hg, hp, hd, methodNotAllowed, WriteHeader, NewRecorder]

/-- Witness of C7: a POST of the bare target `"/"` on the empty store; the method check
comes before the check of the key. -/
theorem method_not_allowed_witness :
    ("POST" ≠ "GET" ∧ "POST" ≠ "PUT" ∧ "POST" ≠ "DELETE")
      ∧ (ServeHTTP NewRecorder { Method := "POST", Path := "/", Body := "", BodyErr := none }
        emptyStore).w.Code = 405
      ∧ (ServeHTTP NewRecorder { Method := "POST", Path := "/", Body := "", BodyErr := none }
        emptyStore).w.Body = ""
      ∧ (ServeHTTP NewRecorder { Method := "POST", Path := "/", Body := "", BodyErr := none }
        emptyStore).store = emptyStore
      ∧ (ServeHTTP NewRecorder { Method := "POST", Path := "/", Body := "", BodyErr := none }
        emptyStore).panicked = false :=
  ⟨by decide, method_not_allowed emptyStore
    { Method := "POST", Path := "/", Body := "", BodyErr := none }
    (by decide) (by decide) (by decide)⟩

/-- C8 (write): for every store, a PUT whose target yields the key `k` and whose body
`v` was read without error answers 201 with an empty body on a fresh writer, does not
panic, and leaves the store that `Put(k, v)` produces, in which `Get(k)` returns
`(v, nil)`; `k` may or may not have had an entry before, and `v` may be empty. -/
theorem put_request_created (s : Store) (r : Request) (k : String)
    (hm : r.Method = "PUT") (hk : getKey r = (k, none)) (hb : r.BodyErr = none) :
    (ServeHTTP NewRecorder r s).w.Code = 201
      ∧ (ServeHTTP NewRecorder r s).w.Body = ""
      ∧ Get (ServeHTTP NewRecorder r s).store k = (r.Body, none)
      ∧ (ServeHTTP NewRecorder r s).store = (Put s k r.Body).1
      ∧ (ServeHTTP NewRecorder r s).panicked = false := by
  simp [ServeHTTP, PutHandler, hm, hk, hb, Put, Get, WriteHeader, NewRecorder]

/-- Witness of C8: `PUT /newkey` with body `"newvalue"` on a store that already holds
`"newkey"`. -/
theorem put_request_created_witness :
    getKey { Method := "PUT", Path := "/newkey", Body := "newvalue", BodyErr := none }
        = ("newkey", none)
      ∧ (ServeHTTP NewRecorder
        { Method := "PUT", Path := "/newkey", Body := "newvalue", BodyErr := none }
        (Put emptyStore "newkey" "old").1).w.Code = 201
      ∧ (ServeHTTP NewRecorder
        { Method := "PUT", Path := "/newkey", Body := "newvalue", BodyErr := none }
        (Put emptyStore "newkey" "old").1).w.Body = ""
      ∧ Get (ServeHTTP NewRecorder
        { Method := "PUT", Path := "/newkey", Body := "newvalue", BodyErr := none }
        (Put emptyStore "newkey" "old").1).store "newkey" = ("newvalue", none)
      ∧ (ServeHTTP NewRecorder
        { Method := "PUT", Path := "/newkey", Body := "newvalue", BodyErr := none }
        (Put emptyStore "newkey" "old").1).store
          = (Put (Put emptyStore "newkey" "old").1 "newkey" "newvalue").1
      ∧ (ServeHTTP NewRecorder
        { Method := "PUT", Path := "/newkey", Body := "newvalue", BodyErr := none }
        (Put emptyStore "newkey" "old").1).panicked = false :=
  ⟨by decide, put_request_created (Put emptyStore "newkey" "old").1
    { Method := "PUT", Path := "/newkey", Body := "newvalue", BodyErr := none } "newkey"
    rfl (by decide) rfl⟩

/-- C9 (read of an existing key): when `k` maps to `v` in `s`, a GET whose target yields
`k`, on a fresh writer that does not fail, answers 200 with body `v`, does not panic, and
leaves the store as it was.  In particular, after a PUT of `k` with a body read without
error (empty or not), on any store, the GET answers 200 with that body. -/
theorem get_request_ok (s s0 : Store) (r rp : Request) (k v : String)
    (hm : r.Method = "GET") (hk : getKey r = (k, none)) (hv : s k = some v)
    (hpm : rp.Method = "PUT") (hpk : getKey rp = (k, none)) (hpb : rp.BodyErr = none) :
    ((ServeHTTP NewRecorder r s).w.Code = 200
      ∧ (ServeHTTP NewRecorder r s).w.Body = v
      ∧ (ServeHTTP NewRecorder r s).store = s
      ∧ (ServeHTTP NewRecorder r s).panicked = false)
    ∧ ((ServeHTTP NewRecorder r (ServeHTTP NewRecorder rp s0).store).w.Code = 200
      ∧ (ServeHTTP NewRecorder r (ServeHTTP NewRecorder rp s0).store).w.Body = rp.Body) := by
  have hget : ∀ (t : Store) (x : String), t k = some x →
      (ServeHTTP NewRecorder r t).w.Code = 200 ∧ (ServeHTTP NewRecorder r t).w.Body = x
        ∧ (ServeHTTP NewRecorder r t).store = t
        ∧ (ServeHTTP NewRecorder r t).panicked = false := by
    intro t x hx
    simp [ServeHTTP, GetHandler, hm, hk, Get, hx, errorsIs, Write, WriteHeader, NewRecorder]
  have hput : (ServeHTTP NewRecorder rp s0).store k = some rp.Body := by
    simp [ServeHTTP, PutHandler, hpm, hpk, hpb, Put]
  exact ⟨hget s v hv, (hget _ _ hput).1, (hget _ _ hput).2.1⟩

/-- Witness of C9: `GET /newkey` on the store holding `"newkey" = "newvalue"`, and
`GET /newkey` after `PUT /newkey` with an empty body on the empty store. -/
theorem get_request_ok_witness :
    (getKey { Method := "GET", Path := "/newkey", Body := "", BodyErr := none }
        = ("newkey", none)
      ∧ (Put emptyStore "newkey" "newvalue").1 "newkey" = some "newvalue"
      ∧ getKey { Method := "PUT", Path := "/newkey", Body := "", BodyErr := none }
        = ("newkey", none))
    ∧ ((ServeHTTP NewRecorder
        { Method := "GET", Path := "/newkey", Body := "", BodyErr := none }
        (Put emptyStore "newkey" "newvalue").1).w.Code = 200
      ∧ (ServeHTTP NewRecorder
        { Method := "GET", Path := "/newkey", Body := "", BodyErr := none }
        (Put emptyStore "newkey" "newvalue").1).w.Body = "newvalue"
      ∧ (ServeHTTP NewRecorder
        { Method := "GET", Path := "/newkey", Body := "", BodyErr := none }
        (Put emptyStore "newkey" "newvalue").1).store = (Put emptyStore "newkey" "newvalue").1
      ∧ (ServeHTTP NewRecorder
        { Method := "GET", Path := "/newkey", Body := "", BodyErr := none }
        (Put emptyStore "newkey" "newvalue").1).panicked = false)
    ∧ ((ServeHTTP NewRecorder
        { Method := "GET", Path := "/newkey", Body := "", BodyErr := none }
        (ServeHTTP NewRecorder
          { Method := "PUT", Path := "/newkey", Body := "", BodyErr := none }
          emptyStore).store).w.Code = 200
      ∧ (ServeHTTP NewRecorder
        { Method := "GET", Path := "/newkey", Body := "", BodyErr := none }
        (ServeHTTP NewRecorder
          { Method := "PUT", Path := "/newkey", Body := "", BodyErr := none }
          emptyStore).store).w.Body = "") :=
  ⟨by decide, get_request_ok (Put emptyStore "newkey" "newvalue").1 emptyStore
    { Method := "GET", Path := "/newkey", Body := "", BodyErr := none }
    { Method := "PUT", Path := "/newkey", Body := "", BodyErr := none }
    "newkey" "newvalue" rfl (by decide) (by decide) rfl (by decide) rfl⟩

/-- A GET never changes the store, whatever the writer and the target. -/
theorem serve_get_store (w : ResponseWriter) (r : Request) (s : Store)
    (hm : r.Method = "GET") : (ServeHTTP w r s).store = s := by
  simp only [ServeHTTP, hm, if_true, GetHandler]
  split
  · rfl
  · split
    · rfl
    · split
      · rfl
      · split <;> rfl

/-- C10 (read of an absent key, failing input): `GET /nonexistentkey` on the empty
store answers 404 and leaves the store empty, but the body is not empty: it is the
text `"404 page not found"` and a newline, written by `http.NotFound`. -/
theorem get_absent_body_not_empty :
    (ServeHTTP NewRecorder
        { Method := "GET", Path := "/nonexistentkey", Body := "", BodyErr := none }
        emptyStore).w.Code = 404
      ∧ (ServeHTTP NewRecorder
        { Method := "GET", Path := "/nonexistentkey", Body := "", BodyErr := none }
        emptyStore).w.Body = "404 page not found\n"
      ∧ (ServeHTTP NewRecorder
        { Method := "GET", Path := "/nonexistentkey", Body := "", BodyErr := none }
        emptyStore).w.Body ≠ ""
      ∧ (ServeHTTP NewRecorder
        { Method := "GET", Path := "/nonexistentkey", Body := "", BodyErr := none }
        emptyStore).store = emptyStore :=
  ⟨by decide, by decide, by decide, serve_get_store _ _ _ rfl⟩

/-- Key extraction reads only the path of the request. -/
theorem getKey_path_only (r1 r2 : Request) (h : r1.Path = r2.Path) : getKey r1 = getKey r2 := by
  unfold getKey
  rw [h]

/-- C11 (delete request): for every store, a DELETE whose target yields the key `k`,
present in the store or not, answers 200 with an empty body on a fresh writer and does
not panic; afterwards `Get(k)` returns `("", ErrorNoSuchKey)`, and a GET of the same
target on the resulting store answers 404. -/
theorem delete_request_ok (s : Store) (r rg : Request) (k : String)
    (hm : r.Method = "DELETE") (hk : getKey r = (k, none))
    (hgm : rg.Method = "GET") (hgp : rg.Path = r.Path) :
    (ServeHTTP NewRecorder r s).w.Code = 200
      ∧ (ServeHTTP NewRecorder r s).w.Body = ""
      ∧ (ServeHTTP NewRecorder r s).panicked = false
      ∧ (ServeHTTP NewRecorder r s).store = (Delete s k).1
      ∧ Get (ServeHTTP NewRecorder r s).store k = ("", some GoError.ErrorNoSuchKey)
      ∧ (ServeHTTP NewRecorder rg (ServeHTTP NewRecorder r s).store).w.Code = 404 := by
  have hgk : getKey rg = (k, none) := by rw [getKey_path_only rg r hgp, hk]
  have hd : (ServeHTTP NewRecorder r s).store = (Delete s k).1 := by
    simp [ServeHTTP, DeleteHandler, hm, hk, Delete]
  refine ⟨?_, ?_, ?_, hd, ?_, ?_⟩
  · simp [ServeHTTP, DeleteHandler, hm, hk, Delete, NewRecorder]
  · simp [ServeHTTP, DeleteHandler, hm, hk, Delete, NewRecorder]
  · simp [ServeHTTP, DeleteHandler, hm, hk, Delete]
  · rw [hd]; simp [Get, Delete]
  · rw [hd]
    simp [ServeHTTP, GetHandler, hgm, hgk, Get, Delete, errorsIs, NotFound, httpError,
      WriteHeader, Write, NewRecorder]

/-- Witness of C11: `DELETE /newkey` on the store holding `"newkey" = "newvalue"`,
followed by `GET /newkey`. -/
theorem delete_request_ok_witness :
    getKey { Method := "DELETE", Path := "/newkey", Body := "", BodyErr := none }
        = ("newkey", none)
      ∧ ((ServeHTTP NewRecorder
          { Method := "DELETE", Path := "/newkey", Body := "", BodyErr := none }
          (Put emptyStore "newkey" "newvalue").1).w.Code = 200
        ∧ (ServeHTTP NewRecorder
          { Method := "DELETE", Path := "/newkey", Body := "", BodyErr := none }
          (Put emptyStore "newkey" "newvalue").1).w.Body = ""
        ∧ (ServeHTTP NewRecorder
          { Method := "DELETE", Path := "/newkey", Body := "", BodyErr := none }
          (Put emptyStore "newkey" "newvalue").1).panicked = false
        ∧ (ServeHTTP NewRecorder
          { Method := "DELETE", Path := "/newkey", Body := "", BodyErr := none }
          (Put emptyStore "newkey" "newvalue").1).store
            = (Delete (Put emptyStore "newkey" "newvalue").1 "newkey").1
        ∧ Get (ServeHTTP NewRecorder
          { Method := "DELETE", Path := "/newkey", Body := "", BodyErr := none }
          (Put emptyStore "newkey" "newvalue").1).store "newkey"
            = ("", some GoError.ErrorNoSuchKey)
        ∧ (ServeHTTP NewRecorder
          { Method := "GET", Path := "/newkey", Body := "", BodyErr := none }
          (ServeHTTP NewRecorder
            { Method := "DELETE", Path := "/newkey", Body := "", BodyErr := none }
            (Put emptyStore "newkey" "newvalue").1).store).w.Code = 404) :=
  ⟨by decide, delete_request_ok (Put emptyStore "newkey" "newvalue").1
    { Method := "DELETE", Path := "/newkey", Body := "", BodyErr := none }
    { Method := "GET", Path := "/newkey", Body := "", BodyErr := none }
    "newkey" rfl (by decide) rfl rfl⟩

/-- C12 (failed write of the payload, failing input): `GET /newkey` on the store holding
`"newkey" = "newvalue"`, with a writer whose `Write` fails with the error
"broken pipe": the call ends in a panic, and the body of the response is empty, not
the description of the fault. -/
theorem get_write_failure_panics :
    (ServeHTTP { NewRecorder with writeErr := some (GoError.external "broken pipe") }
        { Method := "GET", Path := "/newkey", Body := "", BodyErr := none }
        (Put emptyStore "newkey" "newvalue").1).panicked = true
      ∧ (ServeHTTP { NewRecorder with writeErr := some (GoError.external "broken pipe") }
        { Method := "GET", Path := "/newkey", Body := "", BodyErr := none }
        (Put emptyStore "newkey" "newvalue").1).w.Body = ""
      ∧ (ServeHTTP { NewRecorder with writeErr := some (GoError.external "broken pipe") }
        { Method := "GET", Path := "/newkey", Body := "", BodyErr := none }
        (Put emptyStore "newkey" "newvalue").1).w.Body
          ≠ (GoError.external "broken pipe").Error := by
  decide

/-- C13 (failed read of the payload): for every store, a PUT whose target yields a key
and whose body read fails with the error `e` answers 500 on a fresh writer, with the
description of `e` as the body, does not panic, and leaves the store as it was; every
key, the key of the request included, has the `Get` result it had. -/
theorem put_body_failure (s : Store) (r : Request) (k : String) (e : GoError)
    (hm : r.Method = "PUT") (hk : getKey r = (k, none)) (hb : r.BodyErr = some e) :
    (ServeHTTP NewRecorder r s).w.Code = 500
      ∧ (ServeHTTP NewRecorder r s).w.Body = e.Error
      ∧ (ServeHTTP NewRecorder r s).panicked = false
      ∧ (ServeHTTP NewRecorder r s).store = s
      ∧ ∀ k2 : String, Get (ServeHTTP NewRecorder r s).store k2 = Get s k2 := by
  have hs : (ServeHTTP NewRecorder r s).store = s := by
    simp [ServeHTTP, PutHandler, hm, hk, hb]
  refine ⟨?_, ?_, ?_, hs, fun k2 => by rw [hs]⟩ <;>
    simp [ServeHTTP, PutHandler, hm, hk, hb, internalServerError, WriteHeader, Write,
      NewRecorder]

/-- Witness of C13: `PUT /newkey` whose body read fails with "unexpected EOF" after
the bytes `"new"`, on the store holding `"newkey" = "old"`. -/
theorem put_body_failure_witness :
    getKey
        { Method := "PUT", Path := "/newkey", Body := "new",
          BodyErr := some (GoError.external "unexpected EOF") } = ("newkey", none)
      ∧ ((ServeHTTP NewRecorder
          { Method := "PUT", Path := "/newkey", Body := "new",
            BodyErr := some (GoError.external "unexpected EOF") }
          (Put emptyStore "newkey" "old").1).w.Code = 500
        ∧ (ServeHTTP NewRecorder
          { Method := "PUT", Path := "/newkey", Body := "new",
            BodyErr := some (GoError.external "unexpected EOF") }
          (Put emptyStore "newkey" "old").1).w.Body
            = (GoError.external "unexpected EOF").Error
        ∧ (ServeHTTP NewRecorder
          { Method := "PUT", Path := "/newkey", Body := "new",
            BodyErr := some (GoError.external "unexpected EOF") }
          (Put emptyStore "newkey" "old").1).panicked = false
        ∧ (ServeHTTP NewRecorder
          { Method := "PUT", Path := "/newkey", Body := "new",
            BodyErr := some (GoError.external "unexpected EOF") }
          (Put emptyStore "newkey" "old").1).store = (Put emptyStore "newkey" "old").1
        ∧ ∀ k2 : String, Get (ServeHTTP NewRecorder
          { Method := "PUT", Path := "/newkey", Body := "new",
            BodyErr := some (GoError.external "unexpected EOF") }
          (Put emptyStore "newkey" "old").1).store k2
            = Get (Put emptyStore "newkey" "old").1 k2) :=
  ⟨by decide, put_body_failure (Put emptyStore "newkey" "old").1
    { Method := "PUT", Path := "/newkey", Body := "new",
      BodyErr := some (GoError.external "unexpected EOF") }
    "newkey" (GoError.external "unexpected EOF") rfl (by decide) rfl⟩

/-- C14 (body of the missing-key response, failing input): a GET, a PUT and a DELETE of
the bare target `"/"` answer 400 with the description of the failure as the body, and
that description is `"key param missing"`, not `"key is required"`. -/
theorem missing_key_body :
    (ServeHTTP NewRecorder { Method := "GET", Path := "/", Body := "", BodyErr := none }
        emptyStore).w.Code = 400
      ∧ (ServeHTTP NewRecorder { Method := "GET", Path := "/", Body := "", BodyErr := none }
        emptyStore).w.Body = "key param missing"
      ∧ (ServeHTTP NewRecorder { Method := "PUT", Path := "/", Body := "", BodyErr := none }
        emptyStore).w.Body = "key param missing"
      ∧ (ServeHTTP NewRecorder { Method := "DELETE", Path := "/", Body := "", BodyErr := none }
        emptyStore).w.Body = "key param missing"
      ∧ (ServeHTTP NewRecorder { Method := "GET", Path := "/", Body := "", BodyErr := none }
        emptyStore).w.Body ≠ "key is required"
      ∧ GoError.keyParamMissing.Error = "key param missing" := by
  decide

/-- C16 (content type, failing input): `GET /nonexistentkey` on the empty store answers
404 with the content type `"text/plain; charset=utf-8"`, set by `http.NotFound`, not
`"application/json"`; the 400, 405, 200 and 201 responses carry `"application/json"`. -/
theorem not_found_content_type :
    (ServeHTTP NewRecorder
        { Method := "GET", Path := "/nonexistentkey", Body := "", BodyErr := none }
        emptyStore).w.Code = 404
      ∧ (ServeHTTP NewRecorder
        { Method := "GET", Path := "/nonexistentkey", Body := "", BodyErr := none }
        emptyStore).w.resultHeader.Get "Content-Type" = "text/plain; charset=utf-8"
      ∧ (ServeHTTP NewRecorder
        { Method := "GET", Path := "/nonexistentkey", Body := "", BodyErr := none }
        emptyStore).w.resultHeader.Get "Content-Type" ≠ "application/json"
      ∧ (ServeHTTP NewRecorder { Method := "GET", Path := "/", Body := "", BodyErr := none }
        emptyStore).w.resultHeader.Get "Content-Type" = "application/json"
      ∧ (ServeHTTP NewRecorder { Method := "POST", Path := "/", Body := "", BodyErr := none }
        emptyStore).w.resultHeader.Get "Content-Type" = "application/json"
      ∧ (ServeHTTP NewRecorder
        { Method := "GET", Path := "/newkey", Body := "", BodyErr := none }
        (Put emptyStore "newkey" "newvalue").1).w.resultHeader.Get "Content-Type"
          = "application/json"
      ∧ (ServeHTTP NewRecorder
        { Method := "PUT", Path := "/newkey", Body := "newvalue", BodyErr := none }
        emptyStore).w.resultHeader.Get "Content-Type" = "application/json" := by
  decide

/-- C17 (locality of the store operations): for `k2` other than `k`, `Get(k2)` returns
the same value and the same error before and after `Put(k, v)`, and before and after
`Delete(k)`. -/
theorem store_frame (s : Store) (k k2 v : String) (h : k2 ≠ k) :
    Get (Put s k v).1 k2 = Get s k2 ∧ Get (Delete s k).1 k2 = Get s k2 := by
  simp [Get, Put, Delete, h]

/-- Witness of C17: the store holding `"a" = "1"`, the key `"b"` written and deleted,
the key `"a"` read. -/
theorem store_frame_witness :
    "a" ≠ "b"
      ∧ (Get (Put (Put emptyStore "a" "1").1 "b" "2").1 "a" = Get (Put emptyStore "a" "1").1 "a"
        ∧ Get (Delete (Put emptyStore "a" "1").1 "b").1 "a"
            = Get (Put emptyStore "a" "1").1 "a") :=
  ⟨by decide, store_frame (Put emptyStore "a" "1").1 "b" "a" "2" (by decide)⟩

/-- C20 (commutation and idempotence): for distinct keys, two `Put`s give the same store
in either order, and so do a `Put` and a `Delete`; `Delete` twice on a key gives the
store of a single `Delete`. -/
theorem store_commute (s : Store) (k1 k2 k v1 v2 : String) (h : k1 ≠ k2) :
    (Put (Put s k1 v1).1 k2 v2).1 = (Put (Put s k2 v2).1 k1 v1).1
      ∧ (Delete (Put s k1 v1).1 k2).1 = (Put (Delete s k2).1 k1 v1).1
      ∧ (Delete (Delete s k).1 k).1 = (Delete s k).1 := by
  refine ⟨?_, ?_, ?_⟩ <;> funext x
  · by_cases h1 : x = k1
    · subst h1
      simp [Put, h]
    · by_cases h2 : x = k2
      · subst h2
        simp [Put, h1]
      · simp [Put, h1, h2]
  · by_cases h1 : x = k1
    · subst h1
      simp [Put, Delete, h]
    · by_cases h2 : x = k2
      · subst h2
        simp [Put, Delete, h1]
      · simp [Put, Delete, h1, h2]
  · by_cases h1 : x = k <;> simp [Delete, h1]

/-- Witness of C20: the keys `"a"` and `"b"` on the store holding `"b" = "0"`. -/
theorem store_commute_witness :
    "a" ≠ "b"
      ∧ ((Put (Put (Put emptyStore "b" "0").1 "a" "1").1 "b" "2").1
          = (Put (Put (Put emptyStore "b" "0").1 "b" "2").1 "a" "1").1
        ∧ (Delete (Put (Put emptyStore "b" "0").1 "a" "1").1 "b").1
          = (Put (Delete (Put emptyStore "b" "0").1 "b").1 "a" "1").1
        ∧ (Delete (Delete (Put emptyStore "b" "0").1 "b").1 "b").1
          = (Delete (Put emptyStore "b" "0").1 "b").1) :=
  ⟨by decide, store_commute (Put emptyStore "b" "0").1 "a" "b" "b" "1" "2" (by decide)⟩

/-- The two outcomes of key extraction: the failure `("", "key param missing")`, or a
key `k`, non-empty and without newline, with the path being a slash followed by `k`. -/
theorem getKey_cases (r : Request) :
    getKey r = ("", some GoError.keyParamMissing)
      ∨ ∃ k : String, k ≠ "" ∧ '\n' ∉ k.data ∧ r.Path = "/" ++ k ∧ getKey r = (k, none) := by
  cases hd : r.Path.data with
  | nil => left; simp [getKey, FindStringSubmatch, hd]
  | cons c rest =>
    by_cases hc : c = '/'
    · subst hc
      by_cases hall : ∀ x ∈ rest, (x != '\n') = true
      · by_cases hne : rest = []
        · left
          subst hne
          simp [getKey, FindStringSubmatch, hd]
        · right
          have hp : r.Path = "/" ++ String.mk rest := by
            apply String.ext
            simp [String.data_append, hd]
          have hk : String.mk rest ≠ "" := by
            intro h
            apply hne
            simpa using congrArg String.data h
          have hnl : '\n' ∉ (String.mk rest).data := by
            intro h
            simpa using hall _ h
          exact ⟨String.mk rest, hk, hnl, hp, getKey_slash r _ hp hk hnl⟩
      · left
        have hdrop : rest.dropWhile (fun x => x != '\n') ≠ [] := by
          intro h
          exact hall (List.dropWhile_eq_nil_iff.mp h)
        simp [getKey, FindStringSubmatch, hd, hdrop]
    · left
      unfold getKey FindStringSubmatch
      rw [hd]
      split
      · rename_i heq
        simp at heq
        exact absurd heq.1 hc
      · simp

/-- C18 (acceptance set of `getKey`): `getKey` returns no error exactly when the path is
a slash followed by a non-empty remainder without newline; it either fails with the
empty key and the error `keyParamMissing`, whose description is "key param missing",
or succeeds with a non-empty key such that the path is a slash followed by the key. -/
theorem getKey_acceptance (r : Request) :
    ((getKey r).2 = none ↔ ∃ k : String, r.Path = "/" ++ k ∧ k ≠ "" ∧ '\n' ∉ k.data)
      ∧ (getKey r = ("", some GoError.keyParamMissing)
        ∨ ((getKey r).2 = none ∧ (getKey r).1 ≠ "" ∧ r.Path = "/" ++ (getKey r).1))
      ∧ GoError.keyParamMissing.Error = "key param missing" := by
  refine ⟨⟨fun h => ?_, fun ⟨k, hp, hne, hnl⟩ => ?_⟩, ?_, rfl⟩
  · rcases getKey_cases r with hf | ⟨k, hne, hnl, hp, _⟩
    · rw [hf] at h
      cases h
    · exact ⟨k, hp, hne, hnl⟩
  · rw [getKey_slash r k hp hne hnl]
  · rcases getKey_cases r with hf | ⟨k, hne, hnl, hp, hk⟩
    · exact Or.inl hf
    · right
      rw [hk]
      exact ⟨rfl, hne, hp⟩

/-- The store after a request: unchanged, or the store of `Put` after a PUT with an
extracted key and a body read without error, or the store of `Delete` after a DELETE
with an extracted key. -/
theorem serve_store_cases (w : ResponseWriter) (r : Request) (s : Store) :
    (ServeHTTP w r s).store = s
      ∨ (r.Method = "PUT" ∧ (getKey r).2 = none ∧ r.BodyErr = none
          ∧ (ServeHTTP w r s).store = (Put s (getKey r).1 r.Body).1)
      ∨ (r.Method = "DELETE" ∧ (getKey r).2 = none
          ∧ (ServeHTTP w r s).store = (Delete s (getKey r).1).1) := by
  by_cases hg : r.Method = "GET"
  · exact Or.inl (serve_get_store w r s hg)
  · by_cases hd : r.Method = "DELETE"
    · rcases getKey_cases r with hf | ⟨k, _, _, _, hk⟩
      · left
        simp [ServeHTTP, hd, DeleteHandler, hf]
      · right; right
        simp [ServeHTTP, hd, DeleteHandler, hk, Delete]
    · by_cases hp : r.Method = "PUT"
      · rcases getKey_cases r with hf | ⟨k, _, _, _, hk⟩
        · left
          simp [ServeHTTP, hp, PutHandler, hf]
        · cases hb : r.BodyErr with
          | some e =>
            left
            simp [ServeHTTP, hp, PutHandler, hk, hb]
          | none =>
            right; left
            simp [ServeHTTP, hp, PutHandler, hk, hb, Put]
      · left
        simp [ServeHTTP, hg, hd, hp]

/-- C19 (handler frame): for every writer and store, the store after `ServeHTTP` agrees
with the store before on every key other than the key extracted from the target; the
store is unchanged after a GET, after a request with an unsupported method, and after a
request whose key extraction fails; and the store after any request is the store before,
or the store of `Put` at the extracted key after a PUT, or the store of `Delete` at the
extracted key after a DELETE. -/
theorem handler_frame (w : ResponseWriter) (s : Store) (r rg ru rf : Request) (k2 : String)
    (hk2 : k2 ≠ (getKey r).1) (hg : rg.Method = "GET")
    (hu : ru.Method ≠ "GET" ∧ ru.Method ≠ "PUT" ∧ ru.Method ≠ "DELETE")
    (hf : (getKey rf).2 ≠ none) :
    (ServeHTTP w r s).store k2 = s k2
      ∧ (ServeHTTP w rg s).store = s
      ∧ (ServeHTTP w ru s).store = s
      ∧ (ServeHTTP w rf s).store = s
      ∧ ((ServeHTTP w r s).store = s
        ∨ (r.Method = "PUT" ∧ (getKey r).2 = none ∧ r.BodyErr = none
            ∧ (ServeHTTP w r s).store = (Put s (getKey r).1 r.Body).1)
        ∨ (r.Method = "DELETE" ∧ (getKey r).2 = none
            ∧ (ServeHTTP w r s).store = (Delete s (getKey r).1).1)) := by
  refine ⟨?_, serve_get_store w rg s hg, ?_, ?_, serve_store_cases w r s⟩
  · rcases serve_store_cases w r s with h | ⟨_, _, _, h⟩ | ⟨_, _, h⟩
    · rw [h]
    · rw [h]; simp [Put, hk2]
    · rw [h]; simp [Delete, hk2]
  · rcases serve_store_cases w ru s with h | ⟨h, _⟩ | ⟨h, _⟩
    · exact h
    · exact absurd h hu.2.1
    · exact absurd h hu.2.2
  · rcases serve_store_cases w rf s with h | ⟨_, h, _⟩ | ⟨_, h, _⟩
    · exact h
    · exact absurd h hf
    · exact absurd h hf

/-- Witness of C19: on the store holding `"a" = "1"` and `"b" = "2"`, the request
`PUT /a` and the key `"b"`; `GET /a`; `POST /a`; `DELETE /`. -/
theorem handler_frame_witness :
    ("b" ≠ (getKey { Method := "PUT", Path := "/a", Body := "3", BodyErr := none }).1
      ∧ (getKey { Method := "DELETE", Path := "/", Body := "", BodyErr := none }).2 ≠ none)
    ∧ ((ServeHTTP NewRecorder { Method := "PUT", Path := "/a", Body := "3", BodyErr := none }
          (Put (Put emptyStore "a" "1").1 "b" "2").1).store "b"
            = (Put (Put emptyStore "a" "1").1 "b" "2").1 "b"
      ∧ (ServeHTTP NewRecorder { Method := "GET", Path := "/a", Body := "", BodyErr := none }
          (Put (Put emptyStore "a" "1").1 "b" "2").1).store
            = (Put (Put emptyStore "a" "1").1 "b" "2").1
      ∧ (ServeHTTP NewRecorder { Method := "POST", Path := "/a", Body := "", BodyErr := none }
          (Put (Put emptyStore "a" "1").1 "b" "2").1).store
            = (Put (Put emptyStore "a" "1").1 "b" "2").1
      ∧ (ServeHTTP NewRecorder { Method := "DELETE", Path := "/", Body := "", BodyErr := none }
          (Put (Put emptyStore "a" "1").1 "b" "2").1).store
            = (Put (Put emptyStore "a" "1").1 "b" "2").1) :=
  have h := handler_frame NewRecorder (Put (Put emptyStore "a" "1").1 "b" "2").1
    { Method := "PUT", Path := "/a", Body := "3", BodyErr := none }
    { Method := "GET", Path := "/a", Body := "", BodyErr := none }
    { Method := "POST", Path := "/a", Body := "", BodyErr := none }
    { Method := "DELETE", Path := "/", Body := "", BodyErr := none }
    "b" (by decide) rfl (by decide) (by decide)
  ⟨by decide, h.1, h.2.1, h.2.2.1, h.2.2.2.1⟩

end KeyValue
